import Mathlib

/-!
Verification of the Red-Read RSVP engine: a shallow embedding of the
tokenizer (src/engine/tokenizer.js) and the playback controller
(src/engine/playback.js), with theorems settling the specified claims.
JavaScript numbers used for timing are modelled as exact rationals;
Math.round is modelled as round-half-up toward positive infinity, which
matches JavaScript semantics.
-/

/-- Reading mode, the `mode` string argument restricted to the two
recognised values ('reading' and 'skim').  `TIMING_CONFIGS[mode]` in the
source falls back to the reading config for unrecognised strings; the
closed inductive type makes the fallback unreachable. -/
inductive Mode
  | reading
  | skim
deriving DecidableEq

/-- Punctuation classification of a word, from the tokenizer's
`classifyPunctuation`. -/
inductive PunctClass
  | none
  | minor
  | major
  | terminal
deriving DecidableEq

/-- Token flags, mirror of the `TokenFlags` object built by `createFlags`. -/
structure TokenFlags where
  isParagraphStart : Bool
  isParagraphEnd : Bool
  punctuation : PunctClass
  isLongWord : Bool
  isNumeric : Bool
  isAbbreviation : Bool
deriving DecidableEq

/-- A display token, mirror of the `Token` object pushed by `tokenize`. -/
structure Token where
  word : String
  orpIndex : Nat
  baseDurationMs : Int
  flags : TokenFlags
deriving DecidableEq

/-- One mode's multiplier table from `TIMING_CONFIGS`. -/
structure TimingConfig where
  longWordMultiplier : ℚ
  minorPunctMultiplier : ℚ
  majorPunctMultiplier : ℚ
  terminalPunctMultiplier : ℚ
  paragraphEndMultiplier : ℚ
  paragraphStartMultiplier : ℚ
  abbreviationMultiplier : ℚ
  numericMultiplier : ℚ

/-- The `TIMING_CONFIGS` table of the source. -/
def TIMING_CONFIGS : Mode → TimingConfig
  | Mode.reading =>
    { longWordMultiplier := 1.2
      minorPunctMultiplier := 1.3
      majorPunctMultiplier := 1.6
      terminalPunctMultiplier := 2.0
      paragraphEndMultiplier := 2.5
      paragraphStartMultiplier := 1.3
      abbreviationMultiplier := 1.4
      numericMultiplier := 1.3 }
  | Mode.skim =>
    { longWordMultiplier := 1.0
      minorPunctMultiplier := 1.1
      majorPunctMultiplier := 1.2
      terminalPunctMultiplier := 1.4
      paragraphEndMultiplier := 1.6
      paragraphStartMultiplier := 1.1
      abbreviationMultiplier := 1.1
      numericMultiplier := 1.1 }

/-- JavaScript `Math.round`: round half up, toward positive infinity. -/
def jsRound (q : ℚ) : ℤ := ⌊q + 1 / 2⌋

/-- `calculateBaseDuration(flags, mode)` from the tokenizer: 300 ms at the
200 WPM baseline, multiplied by every applicable multiplier, then
`Math.round`ed. -/
def calculateBaseDuration (flags : TokenFlags) (mode : Mode) : ℤ :=
  let config := TIMING_CONFIGS mode
  let m1 : ℚ := 1.0
  let m2 := if flags.isLongWord then m1 * config.longWordMultiplier else m1
  let m3 := if flags.isAbbreviation then m2 * config.abbreviationMultiplier else m2
  let m4 := if flags.isNumeric then m3 * config.numericMultiplier else m3
  let m5 :=
    match flags.punctuation with
    | PunctClass.minor => m4 * config.minorPunctMultiplier
    | PunctClass.major => m4 * config.majorPunctMultiplier
    | PunctClass.terminal => m4 * config.terminalPunctMultiplier
    | PunctClass.none => m4
  let m6 := if flags.isParagraphEnd then m5 * config.paragraphEndMultiplier else m5
  let m7 := if flags.isParagraphStart then m6 * config.paragraphStartMultiplier else m6
  jsRound (300 * m7)

/-- The character class `[a-zA-Z0-9]` used throughout the tokenizer. -/
def isAlnumChar (c : Char) : Bool := c.isAlpha || c.isDigit

/-- `calculateORP(word)`: length-stepped pivot index on the clean word
(the function strips non-alphanumerics again itself, a no-op on already
clean input). -/
def calculateORP (word : List Char) : Nat :=
  let len := (word.filter isAlnumChar).length
  if len ≤ 1 then 0
  else if len ≤ 3 then 0
  else if len ≤ 5 then 1
  else if len ≤ 9 then 2
  else if len ≤ 13 then 3
  else 4

/-- The scanning loop of `findORPInWord`: walk the characters after the
leading offset carrying the absolute index `i` and the count `cleanIndex`
of alphanumeric characters seen; return the absolute index at which
`cleanIndex` reaches `orp`, or nothing if the word runs out. -/
def orpScan (cs : List Char) (i cleanIndex orp : Nat) : Option Nat :=
  match cs with
  | [] => Option.none
  | c :: rest =>
    if isAlnumChar c then
      if cleanIndex = orp then Option.some i
      else orpScan rest (i + 1) (cleanIndex + 1) orp
    else orpScan rest (i + 1) cleanIndex orp

/-- `findORPInWord(word)`: skip the leading run of non-alphanumerics,
compute the clean-word ORP, and map it back onto the original word;
falls back to the leading offset (unclamped) when no alphanumeric
character reaches the target count. -/
def findORPInWord (word : String) : Nat :=
  let cs := word.data
  let leadingOffset := (cs.takeWhile (fun c => !isAlnumChar c)).length
  let cleanWord := (cs.drop leadingOffset).filter isAlnumChar
  let orpInClean := calculateORP cleanWord
  match orpScan (cs.drop leadingOffset) leadingOffset 0 orpInClean with
  | Option.some i => i
  | Option.none => leadingOffset

/-- Membership in the `TERMINAL_PUNCT` character class of the source. -/
def isTerminalPunctChar (c : Char) : Bool :=
  c = '.' || c = '!' || c = '?' || c = '…'

/-- Membership in the `MAJOR_PUNCT` character class of the source. -/
def isMajorPunctChar (c : Char) : Bool :=
  c = ':' || c = ';' || c = '—' || c = '–'

/-- Membership in the `MINOR_PUNCT` character class of the source
(the class literal contains the ASCII double quote twice). -/
def isMinorPunctChar (c : Char) : Bool :=
  c = ',' || c = '(' || c = ')' || c = '\'' || c = '"' || c = '-'

/-- `classifyPunctuation(word)`.  The source tests the anchored regexes
`[...]+$` in priority order terminal, major, minor; such a test succeeds
exactly when the final character of the word lies in the class. -/
def classifyPunctuation (word : String) : PunctClass :=
  match word.data.getLast? with
  | Option.none => PunctClass.none
  | Option.some c =>
    if isTerminalPunctChar c then PunctClass.terminal
    else if isMajorPunctChar c then PunctClass.major
    else if isMinorPunctChar c then PunctClass.minor
    else PunctClass.none

/-- `NUMERIC_PATTERN` test: the whole (nonempty) word consists of digits,
commas, periods, dollar signs and percent signs. -/
def isNumericWord (word : String) : Bool :=
  !word.data.isEmpty &&
    word.data.all (fun c => c.isDigit || c = ',' || c = '.' || c = '$' || c = '%')

/-- `ABBREVIATION_PATTERN` test on the character list: one or more
repetitions of an uppercase ASCII letter followed by a period. -/
def isAbbrevChars : List Char → Bool
  | c :: '.' :: rest => c.isUpper && (rest.isEmpty || isAbbrevChars rest)
  | _ => false

/-- `createFlags(word, isParagraphStart, isParagraphEnd)`. -/
def createFlags (word : String) (isParagraphStart isParagraphEnd : Bool) : TokenFlags :=
  let cleanWord := word.data.filter isAlnumChar
  { isParagraphStart := isParagraphStart
    isParagraphEnd := isParagraphEnd
    punctuation := classifyPunctuation word
    isLongWord := decide (8 < cleanWord.length)
    isNumeric := isNumericWord word
    isAbbreviation := isAbbrevChars word.data }

/-- Line-ending normalisation at the head of `splitIntoParagraphs`:
CRLF and bare CR both become LF. -/
def normalizeNewlines : List Char → List Char
  | [] => []
  | '\r' :: '\n' :: rest => '\n' :: normalizeNewlines rest
  | '\r' :: rest => '\n' :: normalizeNewlines rest
  | c :: rest => c :: normalizeNewlines rest

/-- The JavaScript whitespace class (ASCII part), as matched by the
regexes (backslash s) and removed by `String.prototype.trim`. -/
def isJsWhitespace (c : Char) : Bool :=
  c = ' ' || c = '\t' || c = '\n' || c = '\r' ||
    c = Char.ofNat 11 || c = Char.ofNat 12

/-- `String.prototype.trim`: strip whitespace at both ends. -/
def jsTrim (l : List Char) : List Char :=
  ((l.dropWhile isJsWhitespace).reverse.dropWhile isJsWhitespace).reverse

/-- Index of the last newline character of a list, if any; used to model
the greedy-with-backtracking match of the separator regex. -/
def lastIdxNL : List Char → Option Nat
  | [] => Option.none
  | c :: rest =>
    match lastIdxNL rest with
    | Option.some k => Option.some (k + 1)
    | Option.none => if c = '\n' then Option.some 0 else Option.none

/-- The split on the separator regex (newline, any whitespace run,
newline).  At each newline, the greedy separator consumes up to and
including the last newline inside the following whitespace run (when one
exists); otherwise the character is ordinary text.  `fuel` bounds the
recursion by the input length. -/
def splitParasLoop : Nat → List Char → List Char → List (List Char)
  | 0, _, acc => [acc.reverse]
  | _ + 1, [], acc => [acc.reverse]
  | fuel + 1, c :: rest, acc =>
    if c = '\n' then
      match lastIdxNL (rest.takeWhile isJsWhitespace) with
      | Option.some k => acc.reverse :: splitParasLoop fuel (rest.drop (k + 1)) []
      | Option.none => splitParasLoop fuel rest (c :: acc)
    else splitParasLoop fuel rest (c :: acc)

/-- `splitIntoParagraphs(text)`: normalise line endings, split on
blank-line separators, trim each piece, drop empty pieces. -/
def splitIntoParagraphs (text : String) : List (List Char) :=
  let normalized := normalizeNewlines text.data
  ((splitParasLoop (normalized.length + 1) normalized []).map jsTrim).filter
    (fun p => !p.isEmpty)

/-- The word-splitting loop: the source collapses whitespace runs to
single spaces, trims, splits on spaces and drops empty strings, which is
the same as collecting the maximal runs of non-whitespace characters. -/
def wordsLoop : List Char → List Char → List (List Char)
  | [], acc => if acc.isEmpty then [] else [acc.reverse]
  | c :: rest, acc =>
    if isJsWhitespace c then
      if acc.isEmpty then wordsLoop rest []
      else acc.reverse :: wordsLoop rest []
    else wordsLoop rest (c :: acc)

/-- `splitIntoWords(paragraph)`. -/
def splitIntoWords (paragraph : List Char) : List String :=
  (wordsLoop paragraph []).map (fun w => String.mk w)

/-- The inner loop of `tokenize`: build the token of every word of one
paragraph, flagging the first and last word of the paragraph. -/
def tokensOfWords (mode : Mode) (total : Nat) : Nat → List String → List Token
  | _, [] => []
  | wIdx, w :: rest =>
    let flags := createFlags w (decide (wIdx = 0)) (decide (wIdx = total - 1))
    { word := w
      orpIndex := findORPInWord w
      baseDurationMs := calculateBaseDuration flags mode
      flags := flags } :: tokensOfWords mode total (wIdx + 1) rest

/-- `tokenize(text, mode)`: paragraphs, then words, in order. -/
def tokenize (text : String) (mode : Mode) : List Token :=
  (splitIntoParagraphs text).flatMap
    (fun p => tokensOfWords mode (splitIntoWords p).length 0 (splitIntoWords p))

/-- `getDisplayDuration(token, wpm)`: scale the base duration from the
200 WPM baseline to the given rate and `Math.round`. -/
def getDisplayDuration (token : Token) (wpm : ℚ) : ℤ :=
  jsRound (token.baseDurationMs * (200 / wpm))

/-- Notifications delivered to the controller's callbacks, in order of
emission; the payload records what the source passes to the callback
(the token callback also receives the token itself, recoverable from the
index). -/
inductive Ev
  | tokenChanged (index : Nat)
  | progressChanged (percent : ℚ)
  | stateChanged (isPlaying : Bool) (currentIndex : Nat) (wpm : ℚ) (mode : Mode)
  | complete
deriving DecidableEq

/-- State of a `PlaybackController` instance.  `rafId` abstracts the
requestAnimationFrame handle to whether a frame callback is pending;
`events` is the append-only log of callback invocations. -/
structure PlaybackController where
  tokens : List Token
  currentIndex : Nat
  isPlaying : Bool
  wpm : ℚ
  mode : Mode
  rafId : Bool
  lastTimestamp : Option ℚ
  accumulatedTime : ℚ
  currentTokenDuration : ℤ
  wasPlayingBeforeHidden : Bool
  events : List Ev
deriving DecidableEq

namespace PlaybackController

/-- Placeholder for `this.tokens[this.currentIndex]` at positions the
source only reads after a bounds guard; every use below is at an index
proved (or evaluated) to be in range, where `List.getD` agrees with the
JavaScript access. -/
def defaultToken : Token :=
  { word := ""
    orpIndex := 0
    baseDurationMs := 0
    flags :=
      { isParagraphStart := false
        isParagraphEnd := false
        punctuation := PunctClass.none
        isLongWord := false
        isNumeric := false
        isAbbreviation := false } }

/-- The state built by the constructor (callbacks aside). -/
def initial : PlaybackController :=
  { tokens := []
    currentIndex := 0
    isPlaying := false
    wpm := 300
    mode := Mode.reading
    rafId := false
    lastTimestamp := Option.none
    accumulatedTime := 0
    currentTokenDuration := 0
    wasPlayingBeforeHidden := false
    events := [] }

/-- `emitTick()`: notify of the current token, only when
`tokens[currentIndex]` exists. -/
def emitTick (s : PlaybackController) : PlaybackController :=
  if s.currentIndex < s.tokens.length then
    { s with events := s.events ++ [Ev.tokenChanged s.currentIndex] }
  else s

/-- `emitProgress()`. -/
def emitProgress (s : PlaybackController) : PlaybackController :=
  { s with
    events := s.events ++
      [Ev.progressChanged
        (if 0 < s.tokens.length then
          (s.currentIndex : ℚ) / (s.tokens.length : ℚ) * 100
        else 0)] }

/-- `emitStateChange()`. -/
def emitStateChange (s : PlaybackController) : PlaybackController :=
  { s with
    events := s.events ++ [Ev.stateChanged s.isPlaying s.currentIndex s.wpm s.mode] }

/-- The clamp `Math.max(0, Math.min(index, tokens.length - 1))` used by
`load`, `step` and `seek`, over JavaScript (integer) arithmetic. -/
def clampIndex (index : ℤ) (len : Nat) : Nat :=
  (max 0 (min index ((len : ℤ) - 1))).toNat

/-- `pause()`. -/
def pause (s : PlaybackController) : PlaybackController :=
  emitStateChange
    { s with isPlaying := false, rafId := false, lastTimestamp := Option.none }

/-- `stop()`. -/
def stop (s : PlaybackController) : PlaybackController :=
  let s1 := pause s
  emitStateChange { s1 with currentIndex := 0, accumulatedTime := 0 }

/-- `load(tokens, startIndex)`. -/
def load (s : PlaybackController) (tokens : List Token) (startIndex : ℤ) :
    PlaybackController :=
  let s1 := stop s
  let s2 := { s1 with
    tokens := tokens
    currentIndex := clampIndex startIndex tokens.length }
  emitStateChange (emitTick s2)

/-- `play()`: no-op on an empty sequence; rewinds to 0 when at or past
the last index; resets the accumulator, recomputes the current token's
scaled duration, transitions to Running and schedules a frame. -/
def play (s : PlaybackController) : PlaybackController :=
  if s.tokens.length = 0 then s
  else
    let idx := if s.tokens.length - 1 ≤ s.currentIndex then 0 else s.currentIndex
    let dur := getDisplayDuration (s.tokens.getD idx defaultToken) s.wpm
    emitStateChange
      { s with
        currentIndex := idx
        isPlaying := true
        accumulatedTime := 0
        lastTimestamp := Option.none
        currentTokenDuration := dur
        rafId := true }

/-- `toggle()`. -/
def toggle (s : PlaybackController) : PlaybackController :=
  if s.isPlaying then pause s else play s

/-- `setWPM(wpm)`: clamp into [50, 2000]; while playing (with the
current token in range) recompute the in-flight token's duration. -/
def setWPM (s : PlaybackController) (wpm : ℚ) : PlaybackController :=
  let s1 := { s with wpm := max 50 (min 2000 wpm) }
  let s2 :=
    if s1.isPlaying ∧ s1.currentIndex < s1.tokens.length then
      { s1 with
        currentTokenDuration :=
          getDisplayDuration (s1.tokens.getD s1.currentIndex defaultToken) s1.wpm }
    else s1
  emitStateChange s2

/-- `setMode(mode)`. -/
def setMode (s : PlaybackController) (mode : Mode) : PlaybackController :=
  emitStateChange { s with mode := mode }

/-- `step(delta)`: pauses when running (the source saves `wasPlaying`
but never restores it), clamps the moved position, zeroes the
accumulator, and emits token, progress and state notifications. -/
def step (s : PlaybackController) (delta : ℤ) : PlaybackController :=
  let s1 := if s.isPlaying then pause s else s
  let s2 := { s1 with
    currentIndex := clampIndex ((s1.currentIndex : ℤ) + delta) s1.tokens.length
    accumulatedTime := 0 }
  emitStateChange (emitProgress (emitTick s2))

/-- `seek(index)`: pauses when running, clamps the target position,
zeroes the accumulator, emits token and progress, then restarts
playback when it was running (otherwise emits the state change). -/
def seek (s : PlaybackController) (index : ℤ) : PlaybackController :=
  let wasPlaying := s.isPlaying
  let s1 := if wasPlaying then pause s else s
  let s2 := { s1 with
    currentIndex := clampIndex index s1.tokens.length
    accumulatedTime := 0 }
  let s3 := emitProgress (emitTick s2)
  if wasPlaying then play s3 else emitStateChange s3

/-- `seekPercent(percent)`. -/
def seekPercent (s : PlaybackController) (percent : ℚ) : PlaybackController :=
  seek s ⌊percent / 100 * (s.tokens.length : ℚ)⌋

/-- `rewind(words)`. -/
def rewind (s : PlaybackController) (words : ℤ) : PlaybackController :=
  step s (-words)

/-- `tick(timestamp)`: the frame-loop body.  A null `lastTimestamp` only
initialises the baseline (zero elapsed time).  The advancement test is a
single `if`, not a loop: at most one token is consumed per tick, and on
advancement the token's duration is subtracted from the accumulator
(carrying the remainder). -/
def tick (s : PlaybackController) (timestamp : ℚ) : PlaybackController :=
  if s.isPlaying = false then s
  else
    let last := s.lastTimestamp.getD timestamp
    let deltaTime := timestamp - last
    let s1 := { s with
      lastTimestamp := Option.some timestamp
      accumulatedTime := s.accumulatedTime + deltaTime }
    if (s1.currentTokenDuration : ℚ) ≤ s1.accumulatedTime then
      let s2 := { s1 with
        accumulatedTime := s1.accumulatedTime - (s1.currentTokenDuration : ℚ)
        currentIndex := s1.currentIndex + 1 }
      if s2.tokens.length ≤ s2.currentIndex then
        let s3 := pause { s2 with currentIndex := s2.tokens.length - 1 }
        { s3 with events := s3.events ++ [Ev.complete] }
      else
        let s4 := { s2 with
          currentTokenDuration :=
            getDisplayDuration (s2.tokens.getD s2.currentIndex defaultToken) s2.wpm }
        { emitProgress (emitTick s4) with rafId := true }
    else
      { s1 with rafId := true }

/-- `handleVisibilityChange()`, with the `document.hidden` reading
passed in: on hidden, remember whether playback was running and pause;
on visible, clear the frame baseline and the pending elapsed time
(no auto-resume). -/
def handleVisibilityChange (s : PlaybackController) (hidden : Bool) :
    PlaybackController :=
  if hidden then
    let s1 := { s with wasPlayingBeforeHidden := s.isPlaying }
    if s1.isPlaying then pause s1 else s1
  else
    { s with lastTimestamp := Option.none, accumulatedTime := 0 }

/-- `handleFreeze()`. -/
def handleFreeze (s : PlaybackController) : PlaybackController :=
  pause { s with wasPlayingBeforeHidden := s.isPlaying }

/-- `handleResume()`: clear the frame baseline and pending elapsed time
so the suspended interval is not counted as playback time. -/
def handleResume (s : PlaybackController) : PlaybackController :=
  { s with lastTimestamp := Option.none, accumulatedTime := 0 }

end PlaybackController

/-- A token with the minimal base duration (a bare short word), as
produced by the tokenizer for such a word. -/
def tok300 : Token :=
  { word := "abc"
    orpIndex := 0
    baseDurationMs := 300
    flags := PlaybackController.defaultToken.flags }

/-- A controller mid-playback over three minimal tokens at the maximal
rate 2000 WPM (scaled token duration 30 ms), with a frame baseline at
time 0 and an empty accumulator. -/
def runningState3 : PlaybackController :=
  { PlaybackController.initial with
    tokens := [tok300, tok300, tok300]
    isPlaying := true
    wpm := 2000
    rafId := true
    lastTimestamp := Option.some 0
    currentTokenDuration := 30 }

/-- A controller mid-playback over one hundred tokens. -/
def runningState100 : PlaybackController :=
  { PlaybackController.initial with
    tokens := List.replicate 100 tok300
    isPlaying := true
    wpm := 300
    rafId := true
    lastTimestamp := Option.some 0
    currentTokenDuration := 200 }

/-- Claim C1 (code evaluated at the failing input): `tokenize` applied
to a word with no alphanumeric characters produces a token whose
`orpIndex` equals the word's length, violating the specified bound
`0 ≤ orpIndex < length(word)`; the leading-offset fallback of
`findORPInWord` is not clamped into range. -/
theorem tokenize_orp_out_of_range_on_dots :
    ¬ (∀ t ∈ tokenize ("...") Mode.reading, t.orpIndex < t.word.length) ∧
      (tokenize ("...") Mode.reading).map (fun t => (t.word, t.orpIndex, t.word.length)) =
        [("...", 3, 3)] := by
  decide

/-- Claim C6: the two-paragraph scenario.  The sample text yields the
seven tokens of its two paragraphs in order; the token for the word
consisting of w, o, r, l, d and a period is classified terminal; the
last word of the first paragraph is flagged as paragraph end; the first
word of the second paragraph is flagged as paragraph start. -/
theorem tokenize_two_paragraph_scenario :
    (splitIntoParagraphs ("Hello, world. New paragraph here.\n\nSecond paragraph.")).length = 2 ∧
      (tokenize ("Hello, world. New paragraph here.\n\nSecond paragraph.") Mode.reading).map
          (fun t => (t.word, t.flags.punctuation, t.flags.isParagraphStart, t.flags.isParagraphEnd)) =
        [("Hello,", PunctClass.minor, true, false),
          ("world.", PunctClass.terminal, false, false),
          ("New", PunctClass.none, false, false),
          ("paragraph", PunctClass.none, false, false),
          ("here.", PunctClass.terminal, false, true),
          ("Second", PunctClass.none, true, false),
          ("paragraph.", PunctClass.terminal, false, true)] := by
  decide

/-- Claim C3 (code evaluated at the failing input): `step(1)` on a
running controller clamps the position and zeroes the accumulator, but
leaves the controller paused — the saved running state is never
restored, so playback does not resume after the jump. -/
theorem step_while_running_stays_paused :
    runningState3.isPlaying = true ∧
      (runningState3.step 1).isPlaying = false ∧
      (runningState3.step 1).rafId = false ∧
      (runningState3.step 1).currentIndex = 1 ∧
      (runningState3.step 1).accumulatedTime = 0 := by
  refine ⟨rfl, ?_, ?_, ?_, ?_⟩ <;>
    simp [runningState3, PlaybackController.initial, PlaybackController.step,
      PlaybackController.pause, PlaybackController.emitTick,
      PlaybackController.emitProgress, PlaybackController.emitStateChange,
      PlaybackController.clampIndex]

/-- Claim C4 counterexample: at base duration 300 (the tokenizer's
minimal base), the rates 1999 and 2000 are distinct yet yield the same
rounded on-screen duration of 30 ms, so strict monotonicity of the
scaling fails. -/
theorem getDisplayDuration_not_strictly_monotone :
    (1999 : ℚ) < 2000 ∧
      getDisplayDuration tok300 1999 = 30 ∧
      getDisplayDuration tok300 2000 = 30 ∧
      ¬ getDisplayDuration tok300 2000 < getDisplayDuration tok300 1999 := by
  have h1 : getDisplayDuration tok300 1999 = 30 := by
    have : ((300 : ℤ) : ℚ) * (200 / 1999) + 1 / 2 = 121999 / 3998 := by norm_num
    simp only [getDisplayDuration, jsRound, tok300, this]
    norm_num
  have h2 : getDisplayDuration tok300 2000 = 30 := by
    have : ((300 : ℤ) : ℚ) * (200 / 2000) + 1 / 2 = 61 / 2 := by norm_num
    simp only [getDisplayDuration, jsRound, tok300, this]
    norm_num
  refine ⟨by norm_num, h1, h2, ?_⟩
  rw [h1, h2]
  omega

/-- Claim C4 as amended: for a nonnegative base duration and positive
rates, the scaled on-screen duration is antitone in the rate — at the
lower of two rates it is at least (not necessarily strictly greater
than) the duration at the higher rate. -/
theorem getDisplayDuration_antitone (t : Token) (r1 r2 : ℚ)
    (hb : 0 ≤ t.baseDurationMs) (h1 : 0 < r1) (h12 : r1 ≤ r2) :
    getDisplayDuration t r2 ≤ getDisplayDuration t r1 := by
  unfold getDisplayDuration jsRound
  apply Int.floor_le_floor
  have h2 : 0 < r2 := lt_of_lt_of_le h1 h12
  have hbq : (0 : ℚ) ≤ (t.baseDurationMs : ℚ) := by exact_mod_cast hb
  have hdiv : 200 / r2 ≤ 200 / r1 := by
    apply div_le_div_of_nonneg_left (by norm_num) h1 h12
  have := mul_le_mul_of_nonneg_left hdiv hbq
  linarith

/-- Witness for the amended claim C4 at base 300 and rates 200 ≤ 400. -/
theorem getDisplayDuration_antitone_witness :
    getDisplayDuration tok300 400 ≤ getDisplayDuration tok300 200 :=
  getDisplayDuration_antitone tok300 200 400 (by norm_num [tok300]) (by norm_num)
    (by norm_num)

/-- Every multiplier of both timing configurations is at least one. -/
theorem timing_config_multipliers_ge_one (m : Mode) :
    1 ≤ (TIMING_CONFIGS m).longWordMultiplier ∧
      1 ≤ (TIMING_CONFIGS m).minorPunctMultiplier ∧
      1 ≤ (TIMING_CONFIGS m).majorPunctMultiplier ∧
      1 ≤ (TIMING_CONFIGS m).terminalPunctMultiplier ∧
      1 ≤ (TIMING_CONFIGS m).paragraphEndMultiplier ∧
      1 ≤ (TIMING_CONFIGS m).paragraphStartMultiplier ∧
      1 ≤ (TIMING_CONFIGS m).abbreviationMultiplier ∧
      1 ≤ (TIMING_CONFIGS m).numericMultiplier := by
  cases m <;> refine ⟨?_, ?_, ?_, ?_, ?_, ?_, ?_, ?_⟩ <;> norm_num [TIMING_CONFIGS]

/-- A product of two rationals at least one is at least one. -/
theorem one_le_mul_q (m c : ℚ) (hm : 1 ≤ m) (hc : 1 ≤ c) : 1 ≤ m * c := by
  nlinarith

/-- Folding one optional multiplier keeps the accumulator at least one. -/
theorem one_le_ite_mul (b : Bool) (m c : ℚ) (hm : 1 ≤ m) (hc : 1 ≤ c) :
    1 ≤ if b then m * c else m := by
  cases b
  · simpa using hm
  · simpa using one_le_mul_q m c hm hc

/-- Rounding 300 times a multiplier at least one stays at least one. -/
theorem one_le_jsRound300 (q : ℚ) (h : 1 ≤ q) : 1 ≤ jsRound (300 * q) := by
  unfold jsRound
  rw [Int.le_floor]
  push_cast
  nlinarith

/-- Claim C7: for every combination of flags and both modes, the base
duration computed by `calculateBaseDuration` is at least one (every
multiplier of both configurations is at least one, so the rounded value
is in fact at least 300). -/
theorem calculateBaseDuration_pos (flags : TokenFlags) (mode : Mode) :
    1 ≤ calculateBaseDuration flags mode := by
  obtain ⟨hlw, hmin, hmaj, hterm, hpe, hps, hab, hnum⟩ :=
    timing_config_multipliers_ge_one mode
  have h2 := one_le_ite_mul flags.isLongWord 1.0 _ (by norm_num) hlw
  have h3 := one_le_ite_mul flags.isAbbreviation _ _ h2 hab
  have h4 := one_le_ite_mul flags.isNumeric _ _ h3 hnum
  cases hp : flags.punctuation
  · simp only [calculateBaseDuration, hp]
    exact one_le_jsRound300 _ (one_le_ite_mul _ _ _ (one_le_ite_mul _ _ _ h4 hpe) hps)
  · simp only [calculateBaseDuration, hp]
    exact one_le_jsRound300 _
      (one_le_ite_mul _ _ _ (one_le_ite_mul _ _ _ (one_le_mul_q _ _ h4 hmin) hpe) hps)
  · simp only [calculateBaseDuration, hp]
    exact one_le_jsRound300 _
      (one_le_ite_mul _ _ _ (one_le_ite_mul _ _ _ (one_le_mul_q _ _ h4 hmaj) hpe) hps)
  · simp only [calculateBaseDuration, hp]
    exact one_le_jsRound300 _
      (one_le_ite_mul _ _ _ (one_le_ite_mul _ _ _ (one_le_mul_q _ _ h4 hterm) hpe) hps)

/-- The three-token controller paused at the last index. -/
def endedState3 : PlaybackController :=
  { runningState3 with isPlaying := false, rafId := false, currentIndex := 2 }

/-- Claim C9: `play()` on an empty token sequence is a strict no-op (it
returns before mutating or emitting anything); on a non-empty sequence
with the position at or past the last index it rewinds to 0, resets the
clock accumulator, computes the current token's scaled duration, enters
the Running state and schedules a frame. -/
theorem play_spec (s : PlaybackController) :
    (s.tokens = [] → s.play = s) ∧
      (s.tokens ≠ [] → s.tokens.length - 1 ≤ s.currentIndex →
        s.play.currentIndex = 0 ∧ s.play.isPlaying = true ∧
          s.play.accumulatedTime = 0 ∧ s.play.lastTimestamp = Option.none ∧
          s.play.currentTokenDuration =
            getDisplayDuration (s.tokens.getD 0 PlaybackController.defaultToken) s.wpm ∧
          s.play.rafId = true) := by
  constructor
  · intro h
    simp [PlaybackController.play, h]
  · intro h1 h2
    have hlen : s.tokens.length ≠ 0 := by
      simpa [List.length_eq_zero] using h1
    simp [PlaybackController.play, PlaybackController.emitStateChange, hlen, h2]

/-- Witness for claim C9: the empty-sequence no-op on the freshly
constructed controller, and the rewind-to-zero restart on a controller
paused at its last token. -/
theorem play_spec_witness :
    PlaybackController.initial.play = PlaybackController.initial ∧
      endedState3.play.currentIndex = 0 ∧ endedState3.play.isPlaying = true := by
  refine ⟨(play_spec PlaybackController.initial).1 rfl, ?_, ?_⟩
  · exact ((play_spec endedState3).2 (by decide) (by decide)).1
  · exact ((play_spec endedState3).2 (by decide) (by decide)).2.1

/-- Claim C2 counterexample: the running three-token controller's
current token lasts 30 ms, and a single tick delivering 60 ms of
elapsed time — two whole token durations — advances the position by
only one token (not two), leaving a full unconsumed duration of 30 ms
in the accumulator: the advancement test of `tick` is a single `if`,
not a while-loop. -/
theorem tick_if_not_while_cx :
    runningState3.currentTokenDuration = 30 ∧
      (runningState3.tick 60).currentIndex = 1 ∧
      (runningState3.tick 60).currentIndex ≠ 2 ∧
      (runningState3.tick 60).accumulatedTime = 30 ∧
      (runningState3.tick 60).currentTokenDuration = 30 := by
  have hd : getDisplayDuration tok300 2000 = 30 := by
    have h : ((300 : ℤ) : ℚ) * (200 / 2000) + 1 / 2 = 61 / 2 := by norm_num
    simp only [getDisplayDuration, jsRound, tok300, h]
    norm_num
  refine ⟨rfl, ?_, ?_, ?_, ?_⟩ <;>
    norm_num [PlaybackController.tick, runningState3, PlaybackController.initial,
      PlaybackController.pause, PlaybackController.emitTick,
      PlaybackController.emitProgress, PlaybackController.emitStateChange,
      List.getD, hd]

/-- Claim C2 as amended: on a tick while Running, the scheduler performs
a single check, not a loop.  When the accumulated elapsed time reaches
the current token's scaled duration it subtracts that one duration
(carrying the remainder, which may still exceed further token durations)
and advances the position by exactly one, clamped at the end of the
sequence; otherwise position and accumulator are unchanged except for
the added elapsed time.  In particular a tick never advances the
position by more than one token. -/
theorem tick_single_advance (s : PlaybackController) (ts : ℚ)
    (hp : s.isPlaying = true) (hidx : s.currentIndex < s.tokens.length) :
    ((s.currentTokenDuration : ℚ) ≤ s.accumulatedTime + (ts - s.lastTimestamp.getD ts) →
        (s.tick ts).currentIndex = min (s.currentIndex + 1) (s.tokens.length - 1) ∧
          (s.tick ts).accumulatedTime =
            s.accumulatedTime + (ts - s.lastTimestamp.getD ts) - (s.currentTokenDuration : ℚ)) ∧
      (¬ (s.currentTokenDuration : ℚ) ≤ s.accumulatedTime + (ts - s.lastTimestamp.getD ts) →
        (s.tick ts).currentIndex = s.currentIndex ∧
          (s.tick ts).accumulatedTime = s.accumulatedTime + (ts - s.lastTimestamp.getD ts)) ∧
      (s.tick ts).currentIndex ≤ s.currentIndex + 1 := by
  simp only [PlaybackController.tick, hp]
  refine ⟨?_, ?_, ?_⟩
  · intro hge
    rw [if_neg (by simp)]
    simp only [if_pos hge]
    by_cases hc : s.tokens.length ≤ s.currentIndex + 1
    · simp [hc, PlaybackController.pause, PlaybackController.emitStateChange]
      omega
    · have hlt2 : s.currentIndex + 1 < s.tokens.length := by omega
      simp [hc, hlt2, PlaybackController.emitTick, PlaybackController.emitProgress]
      omega
  · intro hlt
    rw [if_neg (by simp)]
    simp [if_neg hlt]
  · rw [if_neg (by simp)]
    by_cases hge : (s.currentTokenDuration : ℚ) ≤ s.accumulatedTime + (ts - s.lastTimestamp.getD ts)
    · simp only [if_pos hge]
      by_cases hc : s.tokens.length ≤ s.currentIndex + 1
      · simp [hc, PlaybackController.pause, PlaybackController.emitStateChange]
        omega
      · have hlt2 : s.currentIndex + 1 < s.tokens.length := by omega
        simp [hc, hlt2, PlaybackController.emitTick, PlaybackController.emitProgress]
    · simp [if_neg hge]

/-- Witness for the amended claim C2: applying the single-advance
characterisation to the running three-token controller at a tick
carrying 60 ms of elapsed time. -/
theorem tick_single_advance_witness :
    (runningState3.tick 60).currentIndex = 1 ∧
      (runningState3.tick 60).accumulatedTime = 30 := by
  have h := tick_single_advance runningState3 60 rfl (by decide)
  have h1 := h.1 (by norm_num [runningState3, PlaybackController.initial])
  constructor
  · rw [h1.1]
    decide
  · rw [h1.2]
    norm_num [runningState3, PlaybackController.initial]

/-- On any tick, the position advances by at most one token (the
advancement test is a single check, and the end-of-sequence clamp only
moves the position down). -/
theorem tick_currentIndex_le (s : PlaybackController) (ts : ℚ) :
    (s.tick ts).currentIndex ≤ s.currentIndex + 1 := by
  simp only [PlaybackController.tick]
  by_cases hp : s.isPlaying = false
  · simp [hp]
  · rw [if_neg hp]
    by_cases hge : (s.currentTokenDuration : ℚ) ≤ s.accumulatedTime + (ts - s.lastTimestamp.getD ts)
    · simp only [if_pos hge]
      by_cases hc : s.tokens.length ≤ s.currentIndex + 1
      · simp [hc, PlaybackController.pause, PlaybackController.emitStateChange]
        omega
      · have hlt2 : s.currentIndex + 1 < s.tokens.length := by omega
        simp [hc, hlt2, PlaybackController.emitTick, PlaybackController.emitProgress]
    · simp [if_neg hge]

/-- Claim C5: a hidden-then-visible cycle clears the frame baseline and
the pending elapsed time (and so does the harder resume signal), and
playback is left paused.  A tick delivered right after the cycle leaves
the position unchanged; even after the user restarts playback, the
first tick advances the position by at most one token, and when the
current token's scaled duration is positive that first tick does not
advance the position at all — the suspended wall-clock interval is
never counted as elapsed playback time. -/
theorem visibility_suspension_safe (s : PlaybackController) (ts : ℚ) :
    ((s.handleVisibilityChange true).handleVisibilityChange false).lastTimestamp = Option.none ∧
      ((s.handleVisibilityChange true).handleVisibilityChange false).accumulatedTime = 0 ∧
      ((s.handleVisibilityChange true).handleVisibilityChange false).isPlaying = false ∧
      s.handleResume.lastTimestamp = Option.none ∧
      s.handleResume.accumulatedTime = 0 ∧
      (((s.handleVisibilityChange true).handleVisibilityChange false).tick ts).currentIndex =
        ((s.handleVisibilityChange true).handleVisibilityChange false).currentIndex ∧
      (((s.handleVisibilityChange true).handleVisibilityChange false).play.tick ts).currentIndex ≤
        ((s.handleVisibilityChange true).handleVisibilityChange false).play.currentIndex + 1 ∧
      (0 < ((s.handleVisibilityChange true).handleVisibilityChange false).play.currentTokenDuration →
        (((s.handleVisibilityChange true).handleVisibilityChange false).play.tick ts).currentIndex =
          ((s.handleVisibilityChange true).handleVisibilityChange false).play.currentIndex) := by
  have hvis : ∀ u : PlaybackController,
      (u.handleVisibilityChange true).handleVisibilityChange false =
        { u.handleVisibilityChange true with
            lastTimestamp := Option.none, accumulatedTime := 0 } := by
    intro u
    simp [PlaybackController.handleVisibilityChange]
  have hpl : ((s.handleVisibilityChange true).handleVisibilityChange false).isPlaying = false := by
    rw [hvis]
    by_cases hp : s.isPlaying = true
    · simp [PlaybackController.handleVisibilityChange, hp, PlaybackController.pause,
        PlaybackController.emitStateChange]
    · simp only [Bool.not_eq_true] at hp
      simp [PlaybackController.handleVisibilityChange, hp]
  refine ⟨by rw [hvis], by rw [hvis], hpl, by simp [PlaybackController.handleResume],
    by simp [PlaybackController.handleResume], ?_, tick_currentIndex_le _ _, ?_⟩
  · simp [PlaybackController.tick, hpl]
  · intro hdur
    set u := (s.handleVisibilityChange true).handleVisibilityChange false with hu
    by_cases hz : u.tokens.length = 0
    · simp [PlaybackController.play, hz]
      simp [PlaybackController.tick, hpl]
    · have hacc : u.play.accumulatedTime = 0 := by
        simp [PlaybackController.play, hz, PlaybackController.emitStateChange]
      have hlast : u.play.lastTimestamp = Option.none := by
        simp [PlaybackController.play, hz, PlaybackController.emitStateChange]
      have hplay : u.play.isPlaying = true := by
        simp [PlaybackController.play, hz, PlaybackController.emitStateChange]
      have hnotge : ¬ ((u.play.currentTokenDuration : ℚ) ≤
          u.play.accumulatedTime + (ts - u.play.lastTimestamp.getD ts)) := by
        rw [hacc, hlast]
        simp only [Option.getD]
        intro hcon
        have : (0 : ℚ) < (u.play.currentTokenDuration : ℚ) := by exact_mod_cast hdur
        simp at hcon
        linarith
      simp only [PlaybackController.tick, hplay]
      rw [if_neg (by simp)]
      rw [if_neg (by simpa using hnotge)]

/-- Witness for claim C5: the hidden-then-visible cycle on the running
three-token controller, followed by a restart; the first tick after the
restart (here 777 ms later in wall-clock time) does not move the
position, because the current token's 30 ms duration is positive and no
elapsed time survived the suspension. -/
theorem visibility_suspension_safe_witness :
    (((runningState3.handleVisibilityChange true).handleVisibilityChange
          false).play.tick 777).currentIndex =
      ((runningState3.handleVisibilityChange true).handleVisibilityChange
          false).play.currentIndex := by
  have h30 : getDisplayDuration tok300 2000 = 30 := by
    have h : ((300 : ℤ) : ℚ) * (200 / 2000) + 1 / 2 = 61 / 2 := by norm_num
    simp only [getDisplayDuration, jsRound, tok300, h]
    norm_num
  refine (visibility_suspension_safe runningState3 777).2.2.2.2.2.2.2 ?_
  have hdur : ((runningState3.handleVisibilityChange true).handleVisibilityChange
      false).play.currentTokenDuration = 30 := by
    simp [PlaybackController.handleVisibilityChange, PlaybackController.pause,
      PlaybackController.emitStateChange, PlaybackController.play, runningState3,
      PlaybackController.initial, List.getD, h30]
  rw [hdur]
  norm_num

/-- The hundred-token controller, paused. -/
def pausedState100 : PlaybackController :=
  { runningState100 with isPlaying := false, rafId := false }

/-- Claim C8 counterexample: on a RUNNING 100-token controller,
`seek(9999)` does not yield position 99: seek clamps to 99 and then
restarts playback, and `play()` rewinds to 0 because the clamped
position is at the last index.  (`seek(-5)` yields 0 as claimed.) -/
theorem seek_running_at_end_rewinds_cx :
    runningState100.tokens.length = 100 ∧ runningState100.isPlaying = true ∧
      (runningState100.seek (-5)).currentIndex = 0 ∧
      (runningState100.seek 9999).currentIndex = 0 ∧
      (runningState100.seek 9999).currentIndex ≠ 99 := by
  decide

/-- The clamp used by `load`, `step` and `seek` agrees with the
specified formula min(max(index, 0), length - 1) on non-empty
sequences. -/
theorem clampIndex_cast (idx : ℤ) (len : Nat) (h : 1 ≤ len) :
    ((PlaybackController.clampIndex idx len : Nat) : ℤ) =
      min (max idx 0) ((len : ℤ) - 1) := by
  unfold PlaybackController.clampIndex
  omega

/-- Claim C8 as amended: `seek` never rejects an out-of-range position —
the target is silently clamped to min(max(index, 0), length - 1).  That
clamped value is the resulting position whenever the controller is
paused; when it is running, seek restarts playback, and `play()`'s
at-the-end rewind sends the position to 0 exactly when the clamped
target is the last index. -/
theorem seek_clamp_spec (s : PlaybackController) (idx : ℤ) (h : s.tokens ≠ []) :
    ((s.seek idx).currentIndex : ℤ) =
      if s.isPlaying = true ∧
          min (max idx 0) ((s.tokens.length : ℤ) - 1) = (s.tokens.length : ℤ) - 1 then 0
      else min (max idx 0) ((s.tokens.length : ℤ) - 1) := by
  have hlen : 1 ≤ s.tokens.length := List.length_pos.mpr h
  have hclamp := clampIndex_cast idx s.tokens.length hlen
  have hle : PlaybackController.clampIndex idx s.tokens.length ≤ s.tokens.length - 1 := by
    unfold PlaybackController.clampIndex
    omega
  have hor : PlaybackController.clampIndex idx s.tokens.length < s.tokens.length := by
    omega
  simp only [PlaybackController.seek]
  by_cases hp : s.isPlaying = true
  · by_cases hc : s.tokens.length - 1 ≤ PlaybackController.clampIndex idx s.tokens.length
    · have hceq : PlaybackController.clampIndex idx s.tokens.length =
          s.tokens.length - 1 := by
        omega
      simp [hp, h, hc, hor, PlaybackController.pause, PlaybackController.emitStateChange,
        PlaybackController.emitTick, PlaybackController.emitProgress,
        PlaybackController.play]
      all_goals split <;> omega
    · simp [hp, h, hc, hor, hclamp, PlaybackController.pause,
        PlaybackController.emitStateChange, PlaybackController.emitTick,
        PlaybackController.emitProgress, PlaybackController.play]
      all_goals split <;> omega
  · have hpf : s.isPlaying = false := by
      simpa using hp
    simp [hpf, hclamp, hor, PlaybackController.pause, PlaybackController.emitStateChange,
      PlaybackController.emitTick, PlaybackController.emitProgress]

/-- Witness for the amended claim C8: on the paused 100-token
controller, `seek(9999)` yields position 99 and `seek(-5)` yields 0. -/
theorem seek_clamp_spec_witness :
    ((pausedState100.seek 9999).currentIndex : ℤ) = 99 ∧
      ((pausedState100.seek (-5)).currentIndex : ℤ) = 0 := by
  constructor
  · have h := seek_clamp_spec pausedState100 9999 (by decide)
    rw [h]
    norm_num [pausedState100, runningState100, PlaybackController.initial]
  · have h := seek_clamp_spec pausedState100 (-5) (by decide)
    rw [h]
    norm_num [pausedState100, runningState100, PlaybackController.initial]

namespace PlaybackController

@[simp] theorem emitTick_currentIndex (s : PlaybackController) :
    s.emitTick.currentIndex = s.currentIndex := by
  unfold emitTick
  split <;> rfl

@[simp] theorem emitTick_tokens (s : PlaybackController) :
    s.emitTick.tokens = s.tokens := by
  unfold emitTick
  split <;> rfl

@[simp] theorem emitTick_isPlaying (s : PlaybackController) :
    s.emitTick.isPlaying = s.isPlaying := by
  unfold emitTick
  split <;> rfl

@[simp] theorem emitProgress_currentIndex (s : PlaybackController) :
    s.emitProgress.currentIndex = s.currentIndex := rfl

@[simp] theorem emitProgress_tokens (s : PlaybackController) :
    s.emitProgress.tokens = s.tokens := rfl

@[simp] theorem emitProgress_isPlaying (s : PlaybackController) :
    s.emitProgress.isPlaying = s.isPlaying := rfl

@[simp] theorem emitStateChange_currentIndex (s : PlaybackController) :
    s.emitStateChange.currentIndex = s.currentIndex := rfl

@[simp] theorem emitStateChange_tokens (s : PlaybackController) :
    s.emitStateChange.tokens = s.tokens := rfl

@[simp] theorem emitStateChange_isPlaying (s : PlaybackController) :
    s.emitStateChange.isPlaying = s.isPlaying := rfl

@[simp] theorem pause_currentIndex (s : PlaybackController) :
    s.pause.currentIndex = s.currentIndex := rfl

@[simp] theorem pause_tokens (s : PlaybackController) :
    s.pause.tokens = s.tokens := rfl

@[simp] theorem pause_isPlaying (s : PlaybackController) :
    s.pause.isPlaying = false := rfl

@[simp] theorem stop_currentIndex (s : PlaybackController) :
    s.stop.currentIndex = 0 := rfl

@[simp] theorem stop_tokens (s : PlaybackController) :
    s.stop.tokens = s.tokens := rfl

@[simp] theorem stop_isPlaying (s : PlaybackController) :
    s.stop.isPlaying = false := rfl

end PlaybackController

/-- The position invariant of claim C10: the current index never
exceeds the last valid index (0 for an empty sequence), and the Running
state implies a non-empty sequence. -/
def PositionInvariant (s : PlaybackController) : Prop :=
  s.currentIndex ≤ s.tokens.length - 1 ∧ (s.isPlaying = true → s.tokens ≠ [])

theorem clampIndex_le (idx : ℤ) (len : Nat) :
    PlaybackController.clampIndex idx len ≤ len - 1 := by
  unfold PlaybackController.clampIndex
  omega

theorem inv_pause (s : PlaybackController) (h : PositionInvariant s) :
    PositionInvariant s.pause := by
  exact ⟨by simpa using h.1, by simp⟩

theorem inv_stop (s : PlaybackController) : PositionInvariant s.stop := by
  exact ⟨by simp, by simp⟩

theorem inv_load (s : PlaybackController) (toks : List Token) (i : ℤ) :
    PositionInvariant (s.load toks i) := by
  unfold PlaybackController.load PositionInvariant
  simp [clampIndex_le]

theorem inv_play (s : PlaybackController) (h : PositionInvariant s) :
    PositionInvariant s.play := by
  by_cases hz : s.tokens.length = 0
  · simpa [PlaybackController.play, hz] using h
  · have hnz : s.tokens ≠ [] := by
      simpa [← List.length_eq_zero] using hz
    unfold PlaybackController.play PositionInvariant
    by_cases hc : s.tokens.length - 1 ≤ s.currentIndex <;>
      simp [hz, hc, hnz] <;> omega

theorem inv_toggle (s : PlaybackController) (h : PositionInvariant s) :
    PositionInvariant s.toggle := by
  unfold PlaybackController.toggle
  split
  · exact inv_pause s h
  · exact inv_play s h

theorem inv_step (s : PlaybackController) (d : ℤ) : PositionInvariant (s.step d) := by
  unfold PlaybackController.step PositionInvariant
  by_cases hp : s.isPlaying = true <;> simp [hp, clampIndex_le]

theorem inv_seek (s : PlaybackController) (i : ℤ) : PositionInvariant (s.seek i) := by
  unfold PlaybackController.seek
  by_cases hp : s.isPlaying = true
  · simp only [hp, if_pos rfl]
    apply inv_play
    constructor <;> simp [clampIndex_le]
  · have hpf : s.isPlaying = false := by simpa using hp
    unfold PositionInvariant
    simp [hpf, clampIndex_le]

theorem inv_seekPercent (s : PlaybackController) (p : ℚ) :
    PositionInvariant (s.seekPercent p) :=
  inv_seek s _

theorem inv_rewind (s : PlaybackController) (n : ℤ) :
    PositionInvariant (s.rewind n) :=
  inv_step s _

theorem inv_setWPM (s : PlaybackController) (w : ℚ) (h : PositionInvariant s) :
    PositionInvariant (s.setWPM w) := by
  obtain ⟨h1, h2⟩ := h
  unfold PlaybackController.setWPM PositionInvariant
  by_cases hc : s.isPlaying = true ∧ s.currentIndex < s.tokens.length
  · simp [hc]
    exact ⟨h1, h2 hc.1⟩
  · simp [hc]
    exact ⟨h1, h2⟩

theorem inv_setMode (s : PlaybackController) (m : Mode) (h : PositionInvariant s) :
    PositionInvariant (s.setMode m) := by
  simpa [PlaybackController.setMode, PositionInvariant] using h

theorem inv_tick (s : PlaybackController) (ts : ℚ) (h : PositionInvariant s) :
    PositionInvariant (s.tick ts) := by
  obtain ⟨h1, h2⟩ := h
  unfold PlaybackController.tick
  by_cases hp : s.isPlaying = false
  · simpa [hp] using ⟨h1, h2⟩
  · have hnz : s.tokens ≠ [] := h2 (by simpa using hp)
    have hlen : 1 ≤ s.tokens.length := List.length_pos.mpr hnz
    rw [if_neg hp]
    by_cases hge : (s.currentTokenDuration : ℚ) ≤ s.accumulatedTime + (ts - s.lastTimestamp.getD ts)
    · simp only [if_pos hge]
      by_cases hc : s.tokens.length ≤ s.currentIndex + 1
      · constructor <;> simp [hc]
      · have hlt2 : s.currentIndex + 1 < s.tokens.length := by omega
        constructor <;> simp [hc, hlt2, hnz]
        omega
    · simp only [if_neg hge]
      exact ⟨by simpa using h1, by intro hq; simpa using hnz⟩

/-- `emitTick` notifies observers only when the current index is a
valid position: with the index at or past the sequence length no token
notification is emitted at all. -/
theorem emitTick_out_of_range (s : PlaybackController)
    (h : s.tokens.length ≤ s.currentIndex) : s.emitTick = s := by
  unfold PlaybackController.emitTick
  rw [if_neg (by omega)]

/-- Claim C10: from any state satisfying the position invariant, every
public operation — load, play, pause, stop, toggle, step, seek,
seekPercent, rewind, setWPM, setMode — and every completed frame tick
yields a state satisfying it again: the current index stays between 0
and max(0, length - 1), so it is 0 for an empty sequence and strictly
below the length for a non-empty one; moreover a token notification is
never emitted with the index at the sequence length. -/
theorem scheduler_position_invariant (s : PlaybackController) (toks : List Token)
    (i d j n : ℤ) (w p ts : ℚ) (m : Mode) (h : PositionInvariant s) :
    PositionInvariant (s.load toks i) ∧ PositionInvariant s.play ∧
      PositionInvariant s.pause ∧ PositionInvariant s.stop ∧
      PositionInvariant s.toggle ∧ PositionInvariant (s.step d) ∧
      PositionInvariant (s.seek j) ∧ PositionInvariant (s.seekPercent p) ∧
      PositionInvariant (s.rewind n) ∧ PositionInvariant (s.setWPM w) ∧
      PositionInvariant (s.setMode m) ∧ PositionInvariant (s.tick ts) ∧
      (s.tokens = [] → s.currentIndex = 0) ∧
      (s.tokens ≠ [] → s.currentIndex < s.tokens.length) ∧
      (∀ u : PlaybackController, u.tokens.length ≤ u.currentIndex → u.emitTick = u) := by
  refine ⟨inv_load s toks i, inv_play s h, inv_pause s h, inv_stop s, inv_toggle s h,
    inv_step s d, inv_seek s j, inv_seekPercent s p, inv_rewind s n, inv_setWPM s w h,
    inv_setMode s m h, inv_tick s ts h, ?_, ?_, fun u hu => emitTick_out_of_range u hu⟩
  · intro he
    have h1 := h.1
    rw [he] at h1
    simpa using h1
  · intro hne
    have h1 := h.1
    have h2 := List.length_pos.mpr hne
    omega

/-- Witness for claim C10: the invariant holds at the freshly
constructed controller and is preserved by a sample of the operations
applied to it. -/
theorem scheduler_position_invariant_witness :
    PositionInvariant (PlaybackController.initial.load [tok300] 5) ∧
      PositionInvariant (PlaybackController.initial.seek 42) ∧
      PositionInvariant (PlaybackController.initial.tick 16) := by
  have h := scheduler_position_invariant PlaybackController.initial [tok300] 5 1 2 3
    100 50 16 Mode.skim (by constructor <;> simp [PlaybackController.initial])
  exact ⟨h.1, h.2.2.2.2.2.2.1, h.2.2.2.2.2.2.2.2.2.2.2.1⟩
